import Mathlib

set_option maxRecDepth 40000

/-!
Shallow embedding of the UDP telemetry ingestion pipeline implemented by the
class `iRacingTelemetry` in `src/main.py`.

Modelling conventions:
* a received datagram is a `List Nat` of byte values;
* Python floats are modelled as exact rationals (`ℚ`);
* decoded JSON documents are `JValue` trees; `json.loads` is embedded by a
  fuel-based parser `jsonLoads` over the UTF-8 decoded character list;
* every Python operation that can raise inside the `try` block of
  `update_data` is embedded as a function returning `Except PyErr _`;
  the blanket `except Exception` handler of the loop corresponds to
  `processPacket` returning the final state together with an optional
  caught error classification.
-/

/-- Runtime errors that can be raised inside the `try` block of
`update_data` and are caught by its blanket `except Exception` handler. -/
inductive PyErr where
  | indexError
  | keyError
  | typeError
  | unicodeDecodeError
  | jsonDecodeError
  deriving DecidableEq

/-- Values produced by `json.loads`; JSON numbers are modelled as exact
rationals. -/
inductive JValue where
  | null
  | bool (b : Bool)
  | num (q : ℚ)
  | str (s : String)
  | arr (elems : List JValue)
  | obj (fields : List (String × JValue))

/-- Lookup of a key in the field list of a decoded JSON object
(Python dict lookup). -/
def assocFind (k : String) : List (String × JValue) → Option JValue
  | [] => none
  | (k', v) :: rest => if k' = k then some v else assocFind k rest

mutual

/-- Python `==` on decoded JSON values: numeric cross-type equality
(`True == 1` holds in Python), deep equality on lists, and key-based
equality on dicts. -/
def JValue.beq : JValue → JValue → Bool
  | .null, .null => true
  | .bool a, .bool b => a == b
  | .bool a, .num q => (if a then (1 : ℚ) else 0) == q
  | .num q, .bool b => q == (if b then (1 : ℚ) else 0)
  | .num a, .num b => a == b
  | .str a, .str b => a == b
  | .arr xs, .arr ys => JValue.beqList xs ys
  | .obj xs, .obj ys => xs.length == ys.length && JValue.beqFields xs ys
  | _, _ => false

/-- Elementwise Python `==` on two JSON arrays. -/
def JValue.beqList : List JValue → List JValue → Bool
  | [], [] => true
  | x :: xs, y :: ys => JValue.beq x y && JValue.beqList xs ys
  | _, _ => false

/-- Python dict equality: every field of the first dict must be present in
the second with an equal value (lengths are compared by `JValue.beq`). -/
def JValue.beqFields : List (String × JValue) → List (String × JValue) → Bool
  | [], _ => true
  | (k, v) :: rest, ys =>
    (match assocFind k ys with
     | some w => JValue.beq v w
     | none => false) && JValue.beqFields rest ys

end

/-- String key used at `src/main.py` lines 51 and 63-64. -/
def keyDriverId : String := "DriverId"

/-- String key used at `src/main.py` line 50. -/
def keySessions : String := "Sessions"

/-- String key used at `src/main.py` line 50. -/
def keyParticipants : String := "Participants"

/-- String key used at `src/main.py` lines 46 and 63-64. -/
def keyCarTelemetry : String := "CarTelemetry"

/-- String key used at `src/main.py` line 63. -/
def keyThrottle : String := "Throttle"

/-- String key used at `src/main.py` line 64. -/
def keyBrake : String := "Brake"

/-- Python subscript `container[key]` with a string key: dict lookup raises
`KeyError` when the key is absent; lists, strings and scalars raise
`TypeError` for a string subscript. -/
def pyGetItemStr : JValue → String → Except PyErr JValue
  | .obj fs, k =>
    match assocFind k fs with
    | some v => .ok v
    | none => .error .keyError
  | _, _ => .error .typeError

/-- Python subscript `container[i]` with a non-negative integer index:
list indexing raises `IndexError` out of bounds, string indexing yields a
one-character string, dicts raise `KeyError` for an absent integer key,
scalars raise `TypeError`. -/
def pyGetItemNat : JValue → Nat → Except PyErr JValue
  | .arr xs, n =>
    match xs[n]? with
    | some v => .ok v
    | none => .error .indexError
  | .str s, n =>
    match s.data[n]? with
    | some c => .ok (.str (String.mk [c]))
    | none => .error .indexError
  | .obj _, _ => .error .keyError
  | _, _ => .error .typeError

/-- Whether the pattern list occurs at the start of the second list. -/
def startsWithPat : List Char → List Char → Bool
  | [], _ => true
  | _ :: _, [] => false
  | p :: ps, h :: hs => p == h && startsWithPat ps hs

/-- Whether the pattern list occurs contiguously anywhere in the second
list (Python substring containment). -/
def containsPat (pat : List Char) : List Char → Bool
  | [] => startsWithPat pat []
  | h :: hs => startsWithPat pat (h :: hs) || containsPat pat hs

/-- Python `k in container` for a string `k`: key membership for dicts,
element membership for lists, substring test for strings, `TypeError` for
scalars. -/
def pyContains (container : JValue) (k : String) : Except PyErr Bool :=
  match container with
  | .obj fs => .ok (fs.any (fun f => f.1 == k))
  | .arr xs => .ok (xs.any (fun x => JValue.beq x (.str k)))
  | .str s => .ok (containsPat k.data s.data)
  | _ => .error .typeError

/-- Python iteration over a value (as consumed by `enumerate`): lists yield
their elements, dicts their keys, strings their characters; scalars raise
`TypeError`. -/
def pyIter : JValue → Except PyErr (List JValue)
  | .arr xs => .ok xs
  | .obj fs => .ok (fs.map (fun f => JValue.str f.1))
  | .str s => .ok (s.data.map (fun c => JValue.str (String.mk [c])))
  | _ => .error .typeError

/-- Python `value * 100` as applied at `src/main.py` lines 63-64: numbers
scale, booleans coerce to integers, strings and lists repeat, `null` and
dicts raise `TypeError`. -/
def pyMul100 : JValue → Except PyErr JValue
  | .num q => .ok (.num (q * 100))
  | .bool b => .ok (.num (if b then (100 : ℚ) else 0))
  | .str s => .ok (.str (String.join (List.replicate 100 s)))
  | .arr xs => .ok (.arr (List.flatten (List.replicate 100 xs)))
  | _ => .error .typeError

/-- Whether a byte is a valid UTF-8 continuation byte. -/
def contOk (b : Nat) : Bool := 0x80 ≤ b && b ≤ 0xBF

/-- Strict UTF-8 decoding of a byte list, as performed by
`bytes.decode('utf-8')`: overlong encodings, surrogates and out-of-range
lead bytes are rejected with `UnicodeDecodeError`. -/
def utf8Decode : List Nat → Except PyErr (List Char)
  | [] => .ok []
  | b :: rest =>
    if b < 0x80 then
      match utf8Decode rest with
      | .ok cs => .ok (Char.ofNat b :: cs)
      | .error e => .error e
    else if b < 0xC2 then .error .unicodeDecodeError
    else if b ≤ 0xDF then
      match rest with
      | c1 :: rest2 =>
        if contOk c1 then
          match utf8Decode rest2 with
          | .ok cs => .ok (Char.ofNat ((b - 0xC0) * 0x40 + (c1 - 0x80)) :: cs)
          | .error e => .error e
        else .error .unicodeDecodeError
      | [] => .error .unicodeDecodeError
    else if b ≤ 0xEF then
      match rest with
      | c1 :: c2 :: rest2 =>
        if (if b = 0xE0 then 0xA0 ≤ c1 && c1 ≤ 0xBF
            else if b = 0xED then 0x80 ≤ c1 && c1 ≤ 0x9F
            else contOk c1) && contOk c2 then
          match utf8Decode rest2 with
          | .ok cs =>
            .ok (Char.ofNat ((b - 0xE0) * 0x1000 + (c1 - 0x80) * 0x40 + (c2 - 0x80)) :: cs)
          | .error e => .error e
        else .error .unicodeDecodeError
      | _ => .error .unicodeDecodeError
    else if b ≤ 0xF4 then
      match rest with
      | c1 :: c2 :: c3 :: rest2 =>
        if (if b = 0xF0 then 0x90 ≤ c1 && c1 ≤ 0xBF
            else if b = 0xF4 then 0x80 ≤ c1 && c1 ≤ 0x8F
            else contOk c1) && contOk c2 && contOk c3 then
          match utf8Decode rest2 with
          | .ok cs =>
            .ok (Char.ofNat ((b - 0xF0) * 0x40000 + (c1 - 0x80) * 0x1000 +
                  (c2 - 0x80) * 0x40 + (c3 - 0x80)) :: cs)
          | .error e => .error e
        else .error .unicodeDecodeError
      | _ => .error .unicodeDecodeError
    else .error .unicodeDecodeError

/-- JSON insignificant whitespace characters. -/
def jsonWs (c : Char) : Bool := c == ' ' || c == '\t' || c == '\n' || c == '\r'

/-- Drop leading JSON whitespace. -/
def skipWs : List Char → List Char
  | [] => []
  | c :: cs => if jsonWs c then skipWs cs else c :: cs

/-- Opening curly brace character. -/
def lbrace : Char := Char.ofNat 123

/-- Closing curly brace character. -/
def rbrace : Char := Char.ofNat 125

/-- Value of a hexadecimal digit character, if any. -/
def hexVal (c : Char) : Option Nat :=
  if c.isDigit then some (c.toNat - 48)
  else if 'a' ≤ c ∧ c ≤ 'f' then some (c.toNat - 87)
  else if 'A' ≤ c ∧ c ≤ 'F' then some (c.toNat - 55)
  else none

/-- Parse the body of a JSON string after its opening quote, handling the
standard escape sequences; returns the string and the remaining input. -/
def parseStrBody (fuel : Nat) (cs : List Char) (acc : List Char) :
    Except PyErr (String × List Char) :=
  match fuel with
  | 0 => .error .jsonDecodeError
  | fuel + 1 =>
    match cs with
    | [] => .error .jsonDecodeError
    | c :: rest =>
      if c == '\"' then .ok (String.mk acc.reverse, rest)
      else if c == '\\' then
        match rest with
        | [] => .error .jsonDecodeError
        | e :: rest2 =>
          if e == '\"' then parseStrBody fuel rest2 ('\"' :: acc)
          else if e == '\\' then parseStrBody fuel rest2 ('\\' :: acc)
          else if e == '/' then parseStrBody fuel rest2 ('/' :: acc)
          else if e == 'n' then parseStrBody fuel rest2 ('\n' :: acc)
          else if e == 't' then parseStrBody fuel rest2 ('\t' :: acc)
          else if e == 'r' then parseStrBody fuel rest2 ('\r' :: acc)
          else if e == 'b' then parseStrBody fuel rest2 (Char.ofNat 8 :: acc)
          else if e == 'f' then parseStrBody fuel rest2 (Char.ofNat 12 :: acc)
          else if e == 'u' then
            match rest2 with
            | h1 :: h2 :: h3 :: h4 :: rest3 =>
              match hexVal h1, hexVal h2, hexVal h3, hexVal h4 with
              | some a, some b, some c', some d =>
                parseStrBody fuel rest3
                  (Char.ofNat (a * 4096 + b * 256 + c' * 16 + d) :: acc)
              | _, _, _, _ => .error .jsonDecodeError
            | _ => .error .jsonDecodeError
          else .error .jsonDecodeError
      else parseStrBody fuel rest (c :: acc)

/-- Split a character list into its maximal leading run of decimal digits
and the remainder. -/
def spanDigits : List Char → List Char × List Char
  | [] => ([], [])
  | c :: cs =>
    if c.isDigit then
      let p := spanDigits cs
      (c :: p.1, p.2)
    else ([], c :: cs)

/-- Numeric value of a list of decimal digit characters. -/
def digitsVal (ds : List Char) : Nat :=
  ds.foldl (fun a c => a * 10 + (c.toNat - 48)) 0

/-- Rational power of ten. -/
def tenPow (n : Nat) : ℚ := (10 : ℚ) ^ n

/-- Parse a JSON number (strict grammar: optional minus, no leading zeros,
optional fraction and exponent) into an exact rational. -/
def parseNumber (cs : List Char) : Except PyErr (ℚ × List Char) :=
  let signed : Bool × List Char :=
    match cs with
    | c :: rest => if c == '-' then (true, rest) else (false, cs)
    | [] => (false, [])
  match spanDigits signed.2 with
  | ([], _) => .error .jsonDecodeError
  | (d :: ds, cs2) =>
    if d == '0' && !ds.isEmpty then .error .jsonDecodeError
    else
      let ipart : ℚ := (digitsVal (d :: ds) : ℚ)
      let fracRes : Except PyErr (ℚ × List Char) :=
        match cs2 with
        | '.' :: cs3 =>
          match spanDigits cs3 with
          | ([], _) => .error .jsonDecodeError
          | (fds, cs4) => .ok (ipart + (digitsVal fds : ℚ) / tenPow fds.length, cs4)
        | _ => .ok (ipart, cs2)
      match fracRes with
      | .error e => .error e
      | .ok (mant, cs5) =>
        let expRes : Except PyErr (ℚ × List Char) :=
          match cs5 with
          | e :: cs6 =>
            if e == 'e' || e == 'E' then
              let esigned : Bool × List Char :=
                match cs6 with
                | c :: r =>
                  if c == '-' then (true, r)
                  else if c == '+' then (false, r)
                  else (false, cs6)
                | [] => (false, [])
              match spanDigits esigned.2 with
              | ([], _) => .error .jsonDecodeError
              | (eds, cs7) =>
                let ev := digitsVal eds
                .ok ((if esigned.1 then mant / tenPow ev else mant * tenPow ev), cs7)
            else .ok (mant, cs5)
          | [] => .ok (mant, cs5)
        match expRes with
        | .error e => .error e
        | .ok (q, cs8) => .ok ((if signed.1 then -q else q), cs8)

/-- Insert a key/value pair into a decoded object, replacing the value in
place when the key is already present (Python dict insertion semantics,
so a duplicate key in the document lets the later value win). -/
def objInsert (fs : List (String × JValue)) (k : String) (v : JValue) :
    List (String × JValue) :=
  match fs with
  | [] => [(k, v)]
  | (k', v') :: rest =>
    if k' = k then (k', v) :: rest else (k', v') :: objInsert rest k v

mutual

/-- Parse one JSON value from the input, after skipping leading
whitespace; fuel bounds the recursion depth. -/
def parseVal (fuel : Nat) (cs : List Char) : Except PyErr (JValue × List Char) :=
  match fuel with
  | 0 => .error .jsonDecodeError
  | fuel + 1 =>
    match skipWs cs with
    | [] => .error .jsonDecodeError
    | c :: rest =>
      if c == 'n' then
        match rest with
        | 'u' :: 'l' :: 'l' :: rest2 => .ok (.null, rest2)
        | _ => .error .jsonDecodeError
      else if c == 't' then
        match rest with
        | 'r' :: 'u' :: 'e' :: rest2 => .ok (.bool true, rest2)
        | _ => .error .jsonDecodeError
      else if c == 'f' then
        match rest with
        | 'a' :: 'l' :: 's' :: 'e' :: rest2 => .ok (.bool false, rest2)
        | _ => .error .jsonDecodeError
      else if c == '\"' then
        match parseStrBody (rest.length + 1) rest [] with
        | .ok (s, rest2) => .ok (.str s, rest2)
        | .error e => .error e
      else if c == '[' then
        match skipWs rest with
        | ']' :: rest2 => .ok (.arr [], rest2)
        | _ =>
          match parseItems fuel rest [] with
          | .ok (xs, rest2) => .ok (.arr xs, rest2)
          | .error e => .error e
      else if c == lbrace then
        match skipWs rest with
        | r :: rest2 =>
          if r == rbrace then .ok (.obj [], rest2)
          else
            match parseMembers fuel (r :: rest2) [] with
            | .ok (fs, rest3) => .ok (.obj fs, rest3)
            | .error e => .error e
        | [] => .error .jsonDecodeError
      else if c == '-' || c.isDigit then
        match parseNumber (c :: rest) with
        | .ok (q, rest2) => .ok (.num q, rest2)
        | .error e => .error e
      else .error .jsonDecodeError

/-- Parse the comma-separated elements of a JSON array up to the closing
bracket. -/
def parseItems (fuel : Nat) (cs : List Char) (acc : List JValue) :
    Except PyErr (List JValue × List Char) :=
  match fuel with
  | 0 => .error .jsonDecodeError
  | fuel + 1 =>
    match parseVal fuel cs with
    | .error e => .error e
    | .ok (v, rest) =>
      match skipWs rest with
      | ',' :: rest2 => parseItems fuel rest2 (v :: acc)
      | ']' :: rest2 => .ok ((v :: acc).reverse, rest2)
      | _ => .error .jsonDecodeError

/-- Parse the members of a JSON object up to the closing brace. -/
def parseMembers (fuel : Nat) (cs : List Char) (acc : List (String × JValue)) :
    Except PyErr (List (String × JValue) × List Char) :=
  match fuel with
  | 0 => .error .jsonDecodeError
  | fuel + 1 =>
    match skipWs cs with
    | '\"' :: rest =>
      match parseStrBody (rest.length + 1) rest [] with
      | .error e => .error e
      | .ok (k, rest2) =>
        match skipWs rest2 with
        | ':' :: rest3 =>
          match parseVal fuel rest3 with
          | .error e => .error e
          | .ok (v, rest4) =>
            match skipWs rest4 with
            | ',' :: rest5 => parseMembers fuel rest5 (objInsert acc k v)
            | r :: rest5 =>
              if r == rbrace then .ok (objInsert acc k v, rest5)
              else .error .jsonDecodeError
            | [] => .error .jsonDecodeError
        | _ => .error .jsonDecodeError
    | _ => .error .jsonDecodeError

end

/-- Embedding of `json.loads` on a decoded character list: parse one value
and require only trailing whitespace after it. -/
def jsonLoads (cs : List Char) : Except PyErr JValue :=
  match parseVal (2 * cs.length + 2) cs with
  | .error e => .error e
  | .ok (v, rest) =>
    match skipWs rest with
    | [] => .ok v
    | _ :: _ => .error .jsonDecodeError

/-- Embedding of `json.loads(data[4:].decode('utf-8'))` applied to the body
bytes (`src/main.py` line 43). -/
def decodeBody (body : List Nat) : Except PyErr JValue :=
  match utf8Decode body with
  | .error e => .error e
  | .ok cs => jsonLoads cs

/-- The constant `BUFFER_SIZE` of `src/main.py` line 12. -/
def BUFFER_SIZE : Nat := 600

/-- The mutable state of an `iRacingTelemetry` object: the three parallel
history lists and the two status flags (`src/main.py` lines 22-28). -/
structure TelemetryState where
  timestamps : List ℚ
  throttle_values : List JValue
  brake_values : List JValue
  game_running : Bool
  car_detected : Bool

/-- The state built by `iRacingTelemetry.__init__`: empty history lists and
both flags down. -/
def initState : TelemetryState :=
  { timestamps := []
    throttle_values := []
    brake_values := []
    game_running := false
    car_detected := false }

/-- The last `n` elements of a list (Python slice `xs[-n:]` for a list of
length at least `n`). -/
def lastN (n : Nat) (xs : List α) : List α := xs.drop (xs.length - n)

/-- The buffer-limiting and store steps of `_process_telemetry`
(`src/main.py` lines 66-75): when the timestamp list is strictly longer
than `BUFFER_SIZE` all three lists are cut to their last `BUFFER_SIZE`
elements, then one element is appended to each. -/
def pushSample (t : ℚ) (throttle brake : JValue) (s : TelemetryState) :
    TelemetryState :=
  let s1 :=
    if s.timestamps.length > BUFFER_SIZE then
      { s with
        timestamps := lastN BUFFER_SIZE s.timestamps
        throttle_values := lastN BUFFER_SIZE s.throttle_values
        brake_values := lastN BUFFER_SIZE s.brake_values }
    else s
  { s1 with
    timestamps := s1.timestamps ++ [t]
    throttle_values := s1.throttle_values ++ [throttle]
    brake_values := s1.brake_values ++ [brake] }

/-- Embedding of `_process_telemetry` (`src/main.py` lines 57-75): the two
subscript chains for throttle and brake are evaluated first, so any raised
error leaves the state untouched; on success the sample is stored with the
call-time timestamp `t`. -/
def processTelemetry (car_index : Nat) (jd : JValue) (t : ℚ)
    (s : TelemetryState) : Except PyErr TelemetryState :=
  match pyGetItemStr jd keyCarTelemetry with
  | .error e => .error e
  | .ok tele1 =>
    match pyGetItemNat tele1 car_index with
    | .error e => .error e
    | .ok entry1 =>
      match pyGetItemStr entry1 keyThrottle with
      | .error e => .error e
      | .ok rawT =>
        match pyMul100 rawT with
        | .error e => .error e
        | .ok throttle =>
          match pyGetItemStr jd keyCarTelemetry with
          | .error e => .error e
          | .ok tele2 =>
            match pyGetItemNat tele2 car_index with
            | .error e => .error e
            | .ok entry2 =>
              match pyGetItemStr entry2 keyBrake with
              | .error e => .error e
              | .ok rawB =>
                match pyMul100 rawB with
                | .error e => .error e
                | .ok brake => .ok (pushSample t throttle brake s)

/-- Embedding of the participant scan of `update_data` (`src/main.py`
lines 50-52): every participant whose `DriverId` equals the session
`DriverId` triggers `_process_telemetry` (the loop has no `break`); a
raised error aborts the scan but keeps all mutations made so far. -/
def processParticipants (jd : JValue) (t : ℚ) :
    List JValue → Nat → TelemetryState → TelemetryState × Option PyErr
  | [], _, s => (s, none)
  | p :: ps, i, s =>
    match pyGetItemStr p keyDriverId with
    | .error e => (s, some e)
    | .ok pid =>
      match pyGetItemStr jd keyDriverId with
      | .error e => (s, some e)
      | .ok did =>
        if JValue.beq pid did then
          match processTelemetry i jd t s with
          | .error e => (s, some e)
          | .ok s' => processParticipants jd t ps (i + 1) s'
        else processParticipants jd t ps (i + 1) s

/-- The framing step of `update_data` (`src/main.py` lines 34-35 and 43):
the type discriminant is `int(data[0])` (raising `IndexError` on an empty
datagram) and the body is `data[4:]`. -/
def frame (data : List Nat) : Except PyErr (Nat × List Nat) :=
  match data with
  | [] => .error .indexError
  | b :: _ => .ok (b, data.drop 4)

/-- The subscript chain `json_data['Sessions'][0]['Participants']` of
`src/main.py` line 50. -/
def sessionsChain (jd : JValue) : Except PyErr JValue :=
  match pyGetItemStr jd keySessions with
  | .error e => .error e
  | .ok sess =>
    match pyGetItemNat sess 0 with
    | .error e => .error e
    | .ok s0 => pyGetItemStr s0 keyParticipants

/-- One full iteration of the `while True` body of `update_data`
(`src/main.py` lines 32-55) on a received datagram `data` at time `t`:
returns the resulting object state and the error caught by the blanket
`except Exception` handler, if any. -/
def processPacket (data : List Nat) (t : ℚ) (s : TelemetryState) :
    TelemetryState × Option PyErr :=
  match frame data with
  | .error e => (s, some e)
  | .ok (packet_id, body) =>
    if packet_id = 2 then
      match decodeBody body with
      | .error e => ({ s with game_running := true }, some e)
      | .ok jd =>
        match pyContains jd keyCarTelemetry with
        | .error e => ({ s with game_running := true }, some e)
        | .ok false => ({ s with game_running := true }, none)
        | .ok true =>
          match sessionsChain jd with
          | .error e =>
            ({ s with game_running := true, car_detected := true }, some e)
          | .ok parts =>
            match pyIter parts with
            | .error e =>
              ({ s with game_running := true, car_detected := true }, some e)
            | .ok plist =>
              processParticipants jd t plist 0
                { s with game_running := true, car_detected := true }
    else ({ s with game_running := true }, none)

/-- The ingestion loop of `update_data` over a finite trace of received
datagrams with their reception times: every caught error is discarded and
the loop continues with the next datagram. -/
def runLoop (events : List (List Nat × ℚ)) (s : TelemetryState) : TelemetryState :=
  events.foldl (fun st e => (processPacket e.1 e.2 st).1) s

/-- Point-in-time copy of the stored history as a list of
(timestamp, throttle, brake) samples. -/
def snapshot (s : TelemetryState) : List (ℚ × JValue × JValue) :=
  s.timestamps.zip (s.throttle_values.zip s.brake_values)

/-- Iterated sample storage: push a list of samples in order through the
store step of `_process_telemetry`. -/
def pushMany (samples : List (ℚ × JValue × JValue)) (s : TelemetryState) :
    TelemetryState :=
  samples.foldl (fun st x => pushSample x.1 x.2.1 x.2.2 st) s

/-- Abstract single-list version of the buffer-limiting and append steps of
`_process_telemetry`. -/
def boundedAppend (xs : List α) (x : α) : List α :=
  (if xs.length > BUFFER_SIZE then lastN BUFFER_SIZE xs else xs) ++ [x]

/-- Whether the decoded body of a datagram is a primary packet whose
decoded document contains the key `CarTelemetry` (the condition guarding
`self.car_detected = True` at `src/main.py` lines 42-47). -/
def decodedHasCarTelemetry (data : List Nat) : Bool :=
  match frame data with
  | .error _ => false
  | .ok (packet_id, body) =>
    if packet_id = 2 then
      match decodeBody body with
      | .ok jd =>
        match pyContains jd keyCarTelemetry with
        | .ok true => true
        | _ => false
      | .error _ => false
    else false

/-- The three parallel history lists of a state have equal length. -/
def eqLens (s : TelemetryState) : Prop :=
  s.throttle_values.length = s.timestamps.length ∧
    s.brake_values.length = s.timestamps.length

/-- Two states hold exactly the same history buffers. -/
def buffersEq (s1 s2 : TelemetryState) : Prop :=
  s1.timestamps = s2.timestamps ∧
    s1.throttle_values = s2.throttle_values ∧
    s1.brake_values = s2.brake_values

/-- Whether a participant entry matches the session driver identity in the
sense of `src/main.py` line 51 (both lookups succeed and compare equal). -/
def isMatch (jd p : JValue) : Bool :=
  match pyGetItemStr p keyDriverId, pyGetItemStr jd keyDriverId with
  | .ok pid, .ok did => JValue.beq pid did
  | _, _ => false

/-- Number of matching participants in a participant list. -/
def countMatches (jd : JValue) (plist : List JValue) : Nat :=
  (plist.filter (fun p => isMatch jd p)).length

/-- Participant entry of the wire schema read by `src/main.py` line 51. -/
def mkParticipant (d : ℚ) : JValue := .obj [(keyDriverId, .num d)]

/-- Telemetry entry of the wire schema read by `src/main.py` lines 63-64. -/
def mkTelemetryEntry (q r : ℚ) : JValue :=
  .obj [(keyThrottle, .num q), (keyBrake, .num r)]

/-- Decoded document of the wire schema read by `update_data`: a session
driver identity, one session with its participant roster, and the parallel
per-car telemetry array. -/
def mkSession (did : ℚ) (parts : List ℚ) (tel : List (ℚ × ℚ)) : JValue :=
  .obj [(keyDriverId, .num did),
        (keySessions, .arr [.obj [(keyParticipants, .arr (parts.map mkParticipant))]]),
        (keyCarTelemetry, .arr (tel.map (fun x => mkTelemetryEntry x.1 x.2)))]

/-- Indices of the entries equal to `did` in a driver-id list, starting
from offset `k`. -/
def matchIdxsAux (did : ℚ) : List ℚ → Nat → List Nat
  | [], _ => []
  | d :: ds, k =>
    if d = did then k :: matchIdxsAux did ds (k + 1)
    else matchIdxsAux did ds (k + 1)

/-- Indices of the participants whose driver id equals the session driver
id. -/
def matchIdxs (did : ℚ) (parts : List ℚ) : List Nat := matchIdxsAux did parts 0

/-- The sample stored for a match at participant index `i`, taken from the
telemetry array (timestamp `t`, throttle and brake scaled by 100). -/
def pushFor (t : ℚ) (tel : List (ℚ × ℚ)) (st : TelemetryState) (i : Nat) :
    TelemetryState :=
  pushSample t (JValue.num ((tel.getD i (0, 0)).1 * 100))
    (JValue.num ((tel.getD i (0, 0)).2 * 100)) st

/-- Byte list of an ASCII string (its UTF-8 encoding). -/
def asciiBytes (s : String) : List Nat := s.data.map Char.toNat

/-- Test input family: `n` samples with distinct timestamps. -/
def rangeSamples (n : Nat) : List (ℚ × JValue × JValue) :=
  (List.range n).map (fun (i : Nat) => ((i : ℚ), JValue.null, JValue.null))

/-- Body of a well-formed primary packet with one matching participant. -/
def demoBodyOne : String :=
  "\x7b\"DriverId\":7,\"Sessions\":[\x7b\"Participants\":[\x7b\"DriverId\":7\x7d]\x7d],\"CarTelemetry\":[\x7b\"Throttle\":0.5,\"Brake\":0.1\x7d]\x7d"

/-- Datagram framing the body `demoBodyOne` as a primary packet. -/
def demoDataOne : List Nat := 2 :: 0 :: 0 :: 0 :: asciiBytes demoBodyOne

/-- Body with two participants both carrying the session driver id, and a
telemetry array long enough for both. -/
def demoBodyDup : String :=
  "\x7b\"DriverId\":7,\"Sessions\":[\x7b\"Participants\":[\x7b\"DriverId\":7\x7d,\x7b\"DriverId\":7\x7d]\x7d],\"CarTelemetry\":[\x7b\"Throttle\":0.5,\"Brake\":0.1\x7d,\x7b\"Throttle\":0.8,\"Brake\":0.2\x7d]\x7d"

/-- Datagram framing the body `demoBodyDup` as a primary packet. -/
def demoDataDup : List Nat := 2 :: 0 :: 0 :: 0 :: asciiBytes demoBodyDup

/-- Body with two matching participants but only one telemetry entry. -/
def demoBodyDupShort : String :=
  "\x7b\"DriverId\":7,\"Sessions\":[\x7b\"Participants\":[\x7b\"DriverId\":7\x7d,\x7b\"DriverId\":7\x7d]\x7d],\"CarTelemetry\":[\x7b\"Throttle\":0.5,\"Brake\":0.1\x7d]\x7d"

/-- Datagram framing the body `demoBodyDupShort` as a primary packet. -/
def demoDataDupShort : List Nat := 2 :: 0 :: 0 :: 0 :: asciiBytes demoBodyDupShort

/-- Body of a primary packet missing the `CarTelemetry` field. -/
def demoBodyNoCT : String := "\x7b\"DriverId\":7\x7d"

/-- Datagram framing the body `demoBodyNoCT` as a primary packet. -/
def demoDataNoCT : List Nat := 2 :: 0 :: 0 :: 0 :: asciiBytes demoBodyNoCT

/-- Decoded document of `demoBodyNoCT`. -/
def jdNoCT : JValue := .obj [(keyDriverId, .num 7)]

/-- Body of a primary packet with `CarTelemetry` but no `Sessions`. -/
def demoBodyNoSess : String := "\x7b\"CarTelemetry\":[]\x7d"

/-- Datagram framing the body `demoBodyNoSess` as a primary packet. -/
def demoDataNoSess : List Nat := 2 :: 0 :: 0 :: 0 :: asciiBytes demoBodyNoSess

/-- Decoded document of `demoBodyNoSess`. -/
def jdNoSess : JValue := .obj [(keyCarTelemetry, .arr [])]

/-- Body of a primary packet with a participant but no top-level
`DriverId`. -/
def demoBodyNoDid : String :=
  "\x7b\"Sessions\":[\x7b\"Participants\":[\x7b\"DriverId\":7\x7d]\x7d],\"CarTelemetry\":[]\x7d"

/-- Datagram framing the body `demoBodyNoDid` as a primary packet. -/
def demoDataNoDid : List Nat := 2 :: 0 :: 0 :: 0 :: asciiBytes demoBodyNoDid

/-- Decoded document of `demoBodyNoDid`. -/
def jdNoDid : JValue :=
  .obj [(keySessions, .arr [.obj [(keyParticipants, .arr [.obj [(keyDriverId, .num 7)]])]]),
        (keyCarTelemetry, .arr [])]

/-- Body with one matching participant but an empty telemetry array. -/
def demoBodyOOB : String :=
  "\x7b\"DriverId\":7,\"Sessions\":[\x7b\"Participants\":[\x7b\"DriverId\":7\x7d]\x7d],\"CarTelemetry\":[]\x7d"

/-- Datagram framing the body `demoBodyOOB` as a primary packet. -/
def demoDataOOB : List Nat := 2 :: 0 :: 0 :: 0 :: asciiBytes demoBodyOOB

/-- Telemetry document whose single entry has an out-of-range throttle of
1.5 and a negative brake of -0.2. -/
def demoExtractDoc : JValue :=
  .obj [(keyCarTelemetry, .arr [mkTelemetryEntry (3 / 2) (-1 / 5)])]

theorem lastN_length (n : Nat) (xs : List α) : (lastN n xs).length = min n xs.length := by
  simp [lastN]
  omega

theorem boundedAppend_length (xs : List α) (x : α) :
    (boundedAppend xs x).length = min (xs.length + 1) (BUFFER_SIZE + 1) := by
  by_cases h : xs.length > BUFFER_SIZE <;> simp [boundedAppend, h, lastN_length] <;> omega

theorem foldl_boundedAppend_length (L : List α) :
    ∀ xs : List α, xs.length ≤ BUFFER_SIZE + 1 →
      (List.foldl boundedAppend xs L).length = min (xs.length + L.length) (BUFFER_SIZE + 1) := by
  induction L with
  | nil => intro xs h; simp; omega
  | cons x L ih =>
    intro xs h
    rw [List.foldl_cons, ih _ (by rw [boundedAppend_length]; omega), boundedAppend_length]
    simp
    omega

theorem foldl_boundedAppend_no_trim (L : List α) :
    ∀ xs : List α, xs.length + L.length ≤ BUFFER_SIZE + 1 →
      List.foldl boundedAppend xs L = xs ++ L := by
  induction L with
  | nil => intro xs h; simp
  | cons x L ih =>
    intro xs h
    simp at h
    have hno : ¬ (xs.length > BUFFER_SIZE) := by omega
    rw [List.foldl_cons]
    have hx : boundedAppend xs x = xs ++ [x] := by simp [boundedAppend, hno]
    rw [hx, ih (xs ++ [x]) (by simp; omega)]
    simp

theorem boundedAppend_full (xs : List α) (x : α) (h : xs.length = BUFFER_SIZE + 1) :
    boundedAppend xs x = xs.drop 1 ++ [x] := by
  have hgt : xs.length > BUFFER_SIZE := by omega
  have h2 : xs.length - BUFFER_SIZE = 1 := by omega
  simp [boundedAppend, hgt, lastN, h2]

theorem pushSample_timestamps (t : ℚ) (th br : JValue) (s : TelemetryState) :
    (pushSample t th br s).timestamps = boundedAppend s.timestamps t := by
  by_cases h : s.timestamps.length > BUFFER_SIZE <;> simp [pushSample, boundedAppend, h]

theorem pushSample_throttles (t : ℚ) (th br : JValue) (s : TelemetryState)
    (h : s.throttle_values.length = s.timestamps.length) :
    (pushSample t th br s).throttle_values = boundedAppend s.throttle_values th := by
  by_cases hc : s.timestamps.length > BUFFER_SIZE <;>
    simp [pushSample, boundedAppend, h, hc]

theorem pushSample_brakes (t : ℚ) (th br : JValue) (s : TelemetryState)
    (h : s.brake_values.length = s.timestamps.length) :
    (pushSample t th br s).brake_values = boundedAppend s.brake_values br := by
  by_cases hc : s.timestamps.length > BUFFER_SIZE <;>
    simp [pushSample, boundedAppend, h, hc]

theorem pushSample_flags (t : ℚ) (th br : JValue) (s : TelemetryState) :
    (pushSample t th br s).game_running = s.game_running ∧
      (pushSample t th br s).car_detected = s.car_detected := by
  by_cases h : s.timestamps.length > BUFFER_SIZE <;> simp [pushSample, h]

theorem eqLens_pushSample (t : ℚ) (th br : JValue) (s : TelemetryState)
    (h : eqLens s) : eqLens (pushSample t th br s) := by
  obtain ⟨h1, h2⟩ := h
  constructor
  · rw [pushSample_throttles t th br s h1, pushSample_timestamps,
      boundedAppend_length, boundedAppend_length, h1]
  · rw [pushSample_brakes t th br s h2, pushSample_timestamps,
      boundedAppend_length, boundedAppend_length, h2]

theorem eqLens_initState : eqLens initState := ⟨rfl, rfl⟩

theorem pushMany_components (L : List (ℚ × JValue × JValue)) :
    ∀ s : TelemetryState, eqLens s →
      (pushMany L s).timestamps
          = List.foldl boundedAppend s.timestamps (L.map (fun x => x.1)) ∧
        (pushMany L s).throttle_values
          = List.foldl boundedAppend s.throttle_values (L.map (fun x => x.2.1)) ∧
        (pushMany L s).brake_values
          = List.foldl boundedAppend s.brake_values (L.map (fun x => x.2.2)) ∧
        eqLens (pushMany L s) := by
  induction L with
  | nil => intro s h; exact ⟨rfl, rfl, rfl, h⟩
  | cons x L ih =>
    intro s h
    have hstep : pushMany (x :: L) s = pushMany L (pushSample x.1 x.2.1 x.2.2 s) := rfl
    obtain ⟨e1, e2, e3, e4⟩ :=
      ih (pushSample x.1 x.2.1 x.2.2 s) (eqLens_pushSample x.1 x.2.1 x.2.2 s h)
    obtain ⟨h1, h2⟩ := h
    refine ⟨?_, ?_, ?_, by rw [hstep]; exact e4⟩
    · rw [hstep, e1, pushSample_timestamps]; rfl
    · rw [hstep, e2, pushSample_throttles x.1 x.2.1 x.2.2 s h1]; rfl
    · rw [hstep, e3, pushSample_brakes x.1 x.2.1 x.2.2 s h2]; rfl

theorem snapshot_zip (M : List (ℚ × JValue × JValue)) :
    (M.map (fun x => x.1)).zip
        ((M.map (fun x => x.2.1)).zip (M.map (fun x => x.2.2))) = M := by
  induction M with
  | nil => rfl
  | cons x M ih => simp [ih]

theorem initState_timestamps : initState.timestamps = [] := rfl

theorem initState_throttles : initState.throttle_values = [] := rfl

theorem initState_brakes : initState.brake_values = [] := rfl

theorem snapshot_pushMany_len (L : List (ℚ × JValue × JValue)) :
    (snapshot (pushMany L initState)).length = min L.length (BUFFER_SIZE + 1) := by
  obtain ⟨e1, e2, e3, _⟩ := pushMany_components L initState eqLens_initState
  rw [snapshot, e1, e2, e3, List.length_zip, List.length_zip,
    initState_timestamps, initState_throttles, initState_brakes,
    foldl_boundedAppend_length _ _ (by simp),
    foldl_boundedAppend_length _ _ (by simp),
    foldl_boundedAppend_length _ _ (by simp)]
  simp only [List.length_nil, List.length_map]
  omega

theorem snapshot_pushMany_short (L : List (ℚ × JValue × JValue))
    (h : L.length ≤ BUFFER_SIZE + 1) :
    snapshot (pushMany L initState) = L := by
  obtain ⟨e1, e2, e3, _⟩ := pushMany_components L initState eqLens_initState
  rw [snapshot, e1, e2, e3, initState_timestamps, initState_throttles, initState_brakes,
    foldl_boundedAppend_no_trim _ _ (by simp; omega),
    foldl_boundedAppend_no_trim _ _ (by simp; omega),
    foldl_boundedAppend_no_trim _ _ (by simp; omega)]
  simp only [List.nil_append]
  exact snapshot_zip L

theorem snapshot_pushMany_full (M : List (ℚ × JValue × JValue))
    (x : ℚ × JValue × JValue) (h : M.length = BUFFER_SIZE + 1) :
    snapshot (pushMany (M ++ [x]) initState) = M.drop 1 ++ [x] := by
  obtain ⟨e1, e2, e3, e4⟩ := pushMany_components M initState eqLens_initState
  have step : pushMany (M ++ [x]) initState
      = pushSample x.1 x.2.1 x.2.2 (pushMany M initState) := by
    simp [pushMany, List.foldl_append]
  obtain ⟨f1, f2⟩ := e4
  rw [step, snapshot, pushSample_timestamps,
    pushSample_throttles x.1 x.2.1 x.2.2 _ f1,
    pushSample_brakes x.1 x.2.1 x.2.2 _ f2, e1, e2, e3,
    initState_timestamps, initState_throttles, initState_brakes,
    foldl_boundedAppend_no_trim _ _ (by simp; omega),
    foldl_boundedAppend_no_trim _ _ (by simp; omega),
    foldl_boundedAppend_no_trim _ _ (by simp; omega)]
  simp only [List.nil_append]
  rw [boundedAppend_full _ _ (by rw [List.length_map, h]),
    boundedAppend_full _ _ (by rw [List.length_map, h]),
    boundedAppend_full _ _ (by rw [List.length_map, h])]
  have hz := snapshot_zip (M.drop 1 ++ [x])
  simp only [List.map_append, List.map_drop, List.map_cons, List.map_nil] at hz
  exact hz

/-- Claim C1 (corrected): starting from an empty buffer, the stored history
length after a sequence of pushes is exactly `min (total pushes) (N + 1)`
and never exceeds `N + 1 = 601` — one more than the nominal capacity
`BUFFER_SIZE = 600`, because `_process_telemetry` trims only when the list
is already strictly longer than `BUFFER_SIZE` and then appends. -/
theorem claim_C1_amended (L : List (ℚ × JValue × JValue)) :
    (snapshot (pushMany L initState)).length = min L.length (BUFFER_SIZE + 1) ∧
      (snapshot (pushMany L initState)).length ≤ BUFFER_SIZE + 1 := by
  refine ⟨snapshot_pushMany_len L, ?_⟩
  rw [snapshot_pushMany_len L]
  omega

/-- Claim C1 (counterexample): pushing `N + 1 = 601` samples into an empty
buffer leaves 601 stored samples, so the stored length is neither bounded
by `N = 600` nor equal to `min 601 600`. -/
theorem claim_C1_counterexample :
    (snapshot (pushMany (rangeSamples (BUFFER_SIZE + 1)) initState)).length
        = BUFFER_SIZE + 1 ∧
      ¬ ((snapshot (pushMany (rangeSamples (BUFFER_SIZE + 1)) initState)).length
        ≤ BUFFER_SIZE) := by
  have hlen : (rangeSamples (BUFFER_SIZE + 1)).length = BUFFER_SIZE + 1 := by
    rw [rangeSamples, List.length_map, List.length_range]
  constructor <;> rw [snapshot_pushMany_len, hlen] <;> omega

/-- Claim C2 (corrected): with capacity `N = BUFFER_SIZE = 600`, pushing
`N + 2` samples `s0..s(N+1)` into an empty buffer yields exactly
`[s1..s(N+1)]` — the single oldest sample is evicted and order is
preserved — whereas after only `N + 1` pushes no eviction has happened yet
(the code trims one push later than the spec states). -/
theorem claim_C2_amended (L : List (ℚ × JValue × JValue))
    (h : L.length = BUFFER_SIZE + 2) :
    snapshot (pushMany L initState) = L.drop 1 := by
  induction L using List.reverseRecOn with
  | nil => simp at h
  | append_singleton M x _ =>
    have hM : M.length = BUFFER_SIZE + 1 := by simpa using h
    rw [snapshot_pushMany_full M x hM, List.drop_append_of_le_length (by omega)]

/-- Witness for C2: a concrete run of `N + 2 = 602` pushes. -/
theorem claim_C2_witness :
    (rangeSamples (BUFFER_SIZE + 2)).length = BUFFER_SIZE + 2 ∧
      snapshot (pushMany (rangeSamples (BUFFER_SIZE + 2)) initState)
        = (rangeSamples (BUFFER_SIZE + 2)).drop 1 :=
  ⟨by rw [rangeSamples, List.length_map, List.length_range],
    claim_C2_amended (rangeSamples (BUFFER_SIZE + 2))
      (by rw [rangeSamples, List.length_map, List.length_range])⟩

/-- Claim C2 (counterexample): after pushing `N + 1 = 601` samples the
buffer still holds all of them, not the claimed last `N`. -/
theorem claim_C2_counterexample :
    snapshot (pushMany (rangeSamples (BUFFER_SIZE + 1)) initState)
        = rangeSamples (BUFFER_SIZE + 1) ∧
      snapshot (pushMany (rangeSamples (BUFFER_SIZE + 1)) initState)
        ≠ (rangeSamples (BUFFER_SIZE + 1)).drop 1 := by
  have hr : (rangeSamples (BUFFER_SIZE + 1)).length = BUFFER_SIZE + 1 := by
    rw [rangeSamples, List.length_map, List.length_range]
  have hs := snapshot_pushMany_short (rangeSamples (BUFFER_SIZE + 1)) (by rw [hr])
  refine ⟨hs, ?_⟩
  rw [hs]
  intro hcontra
  have hlen := congrArg List.length hcontra
  rw [List.length_drop, hr] at hlen
  omega


theorem processPacket_nil (t : ℚ) (s : TelemetryState) :
    processPacket [] t s = (s, some .indexError) := rfl

theorem processPacket_cons_two (tl : List Nat) (t : ℚ) (s : TelemetryState) :
    processPacket (2 :: tl) t s =
      (match decodeBody ((2 :: tl).drop 4) with
       | .error e => ({ s with game_running := true }, some e)
       | .ok jd =>
         match pyContains jd keyCarTelemetry with
         | .error e => ({ s with game_running := true }, some e)
         | .ok false => ({ s with game_running := true }, none)
         | .ok true =>
           match sessionsChain jd with
           | .error e =>
             ({ s with game_running := true, car_detected := true }, some e)
           | .ok parts =>
             match pyIter parts with
             | .error e =>
               ({ s with game_running := true, car_detected := true }, some e)
             | .ok plist =>
               processParticipants jd t plist 0
                 { s with game_running := true, car_detected := true }) := rfl

theorem processPacket_cons_ne (b : Nat) (tl : List Nat) (t : ℚ)
    (s : TelemetryState) (hb : b ≠ 2) :
    processPacket (b :: tl) t s = ({ s with game_running := true }, none) := by
  unfold processPacket frame
  dsimp only
  rw [if_neg hb]

theorem decodedHasCT_nil : decodedHasCarTelemetry [] = false := rfl

theorem decodedHasCT_cons_two (tl : List Nat) :
    decodedHasCarTelemetry (2 :: tl) =
      (match decodeBody ((2 :: tl).drop 4) with
       | .ok jd =>
         match pyContains jd keyCarTelemetry with
         | .ok true => true
         | _ => false
       | .error _ => false) := rfl

theorem decodedHasCT_cons_ne (b : Nat) (tl : List Nat) (hb : b ≠ 2) :
    decodedHasCarTelemetry (b :: tl) = false := by
  unfold decodedHasCarTelemetry frame
  dsimp only
  rw [if_neg hb]

theorem processTelemetry_ok_shape (i : Nat) (jd : JValue) (t : ℚ)
    (s s' : TelemetryState) (h : processTelemetry i jd t s = .ok s') :
    ∃ th br, s' = pushSample t th br s := by
  unfold processTelemetry at h
  cases h1 : pyGetItemStr jd keyCarTelemetry with
  | error e => simp only [h1] at h; cases h
  | ok tele1 =>
    simp only [h1] at h
    cases h2 : pyGetItemNat tele1 i with
    | error e => simp only [h2] at h; cases h
    | ok entry1 =>
      simp only [h2] at h
      cases h3 : pyGetItemStr entry1 keyThrottle with
      | error e => simp only [h3] at h; cases h
      | ok rawT =>
        simp only [h3] at h
        cases h4 : pyMul100 rawT with
        | error e => simp only [h4] at h; cases h
        | ok throttle =>
          simp only [h4] at h
          cases h5 : pyGetItemStr entry1 keyBrake with
          | error e => simp only [h5] at h; cases h
          | ok rawB =>
            simp only [h5] at h
            cases h6 : pyMul100 rawB with
            | error e => simp only [h6] at h; cases h
            | ok brake =>
              simp only [h6] at h
              exact ⟨throttle, brake, (Except.ok.inj h).symm⟩

theorem processParticipants_state (jd : JValue) (t : ℚ) (plist : List JValue) :
    ∀ (i : Nat) (s : TelemetryState),
      ((processParticipants jd t plist i s).1.game_running = s.game_running ∧
          (processParticipants jd t plist i s).1.car_detected = s.car_detected) ∧
        (eqLens s → eqLens (processParticipants jd t plist i s).1) := by
  induction plist with
  | nil => intro i s; exact ⟨⟨rfl, rfl⟩, fun h => h⟩
  | cons p ps ih =>
    intro i s
    unfold processParticipants
    cases hp : pyGetItemStr p keyDriverId with
    | error e => exact ⟨⟨rfl, rfl⟩, fun h => h⟩
    | ok pid =>
      cases hd : pyGetItemStr jd keyDriverId with
      | error e => exact ⟨⟨rfl, rfl⟩, fun h => h⟩
      | ok did =>
        by_cases hb : JValue.beq pid did
        · simp only [hb, if_true]
          cases hpt : processTelemetry i jd t s with
          | error e => exact ⟨⟨rfl, rfl⟩, fun h => h⟩
          | ok s' =>
            obtain ⟨th, br, rfl⟩ := processTelemetry_ok_shape i jd t s s' hpt
            obtain ⟨hf, hl⟩ := ih (i + 1) (pushSample t th br s)
            obtain ⟨hg, hc⟩ := pushSample_flags t th br s
            exact ⟨⟨hf.1.trans hg, hf.2.trans hc⟩,
              fun h => hl (eqLens_pushSample t th br s h)⟩
        · simp only [hb, if_false]
          exact ih (i + 1) s

/-- Claim C9 (confirmed): processing any datagram preserves equality of the
lengths of the three parallel history lists — every store trims all three
lists together and appends exactly one element to each, and every failure
path leaves all three untouched. -/
theorem claim_C9_parallel_lengths (data : List Nat) (t : ℚ)
    (s : TelemetryState) (h : eqLens s) : eqLens (processPacket data t s).1 := by
  cases data with
  | nil => exact h
  | cons b tl =>
    by_cases hb : b = 2
    · subst hb
      rw [processPacket_cons_two]
      cases hdec : decodeBody ((2 :: tl).drop 4) with
      | error e => exact h
      | ok jd =>
        simp only [hdec]
        cases hc : pyContains jd keyCarTelemetry with
        | error e => exact h
        | ok bv =>
          cases bv with
          | false => exact h
          | true =>
            simp only [hc]
            cases hs : sessionsChain jd with
            | error e => exact h
            | ok parts =>
              simp only [hs]
              cases hi : pyIter parts with
              | error e => exact h
              | ok plist =>
                simp only [hi]
                exact (processParticipants_state jd t plist 0 _).2 h
    · rw [processPacket_cons_ne b tl t s hb]
      exact h

/-- Witness for C9 at a concrete datagram and state. -/
theorem claim_C9_witness :
    eqLens initState ∧ eqLens (processPacket [2, 0, 0, 0] 0 initState).1 :=
  ⟨⟨rfl, rfl⟩, claim_C9_parallel_lengths [2, 0, 0, 0] 0 initState ⟨rfl, rfl⟩⟩

/-- Claim C10 (confirmed): both status flags are monotone.
`game_running` is set exactly when a datagram carrying a type discriminant
byte (any non-empty datagram) is received and is never cleared (a
zero-length datagram raises `IndexError` at `data[0]` before the flag
assignment is reached). `car_detected` is set exactly when a primary
packet decodes to a document containing the key `CarTelemetry` — whether
or not the player car is resolved or any sample is stored — and is never
cleared. -/
theorem claim_C10_flag_monotone (data : List Nat) (t : ℚ) (s : TelemetryState) :
    (processPacket data t s).1.game_running = (s.game_running || !data.isEmpty) ∧
      (processPacket data t s).1.car_detected
        = (s.car_detected || decodedHasCarTelemetry data) := by
  cases data with
  | nil =>
    rw [processPacket_nil, decodedHasCT_nil]
    simp
  | cons b tl =>
    by_cases hb : b = 2
    · subst hb
      rw [processPacket_cons_two, decodedHasCT_cons_two]
      cases hdec : decodeBody ((2 :: tl).drop 4) with
      | error e => simp
      | ok jd =>
        simp only []
        cases hc : pyContains jd keyCarTelemetry with
        | error e => simp
        | ok bv =>
          cases bv with
          | false => simp
          | true =>
            cases hs : sessionsChain jd with
            | error e => simp
            | ok parts =>
              simp only [hs]
              cases hi : pyIter parts with
              | error e => simp
              | ok plist =>
                simp only [hi]
                obtain ⟨⟨hg2, hcd2⟩, _⟩ :=
                  processParticipants_state jd t plist 0
                    { s with game_running := true, car_detected := true }
                rw [hg2, hcd2]
                simp
    · rw [processPacket_cons_ne b tl t s hb, decodedHasCT_cons_ne b tl hb]
      simp

theorem mkSession_driverId (did : ℚ) (parts : List ℚ) (tel : List (ℚ × ℚ)) :
    pyGetItemStr (mkSession did parts tel) keyDriverId = .ok (.num did) := rfl

theorem mkSession_carTelemetry (did : ℚ) (parts : List ℚ) (tel : List (ℚ × ℚ)) :
    pyGetItemStr (mkSession did parts tel) keyCarTelemetry
      = .ok (.arr (tel.map (fun x => mkTelemetryEntry x.1 x.2))) := rfl

theorem mkSession_contains (did : ℚ) (parts : List ℚ) (tel : List (ℚ × ℚ)) :
    pyContains (mkSession did parts tel) keyCarTelemetry = .ok true := rfl

theorem mkSession_sessionsChain (did : ℚ) (parts : List ℚ) (tel : List (ℚ × ℚ)) :
    sessionsChain (mkSession did parts tel) = .ok (.arr (parts.map mkParticipant)) := rfl

theorem mkParticipant_driverId (d : ℚ) :
    pyGetItemStr (mkParticipant d) keyDriverId = .ok (.num d) := rfl

theorem mkTelemetryEntry_throttle (q r : ℚ) :
    pyGetItemStr (mkTelemetryEntry q r) keyThrottle = .ok (.num q) := rfl

theorem mkTelemetryEntry_brake (q r : ℚ) :
    pyGetItemStr (mkTelemetryEntry q r) keyBrake = .ok (.num r) := rfl

theorem beq_num_num (a b : ℚ) : JValue.beq (.num a) (.num b) = (a == b) := rfl

theorem get?_map_getD (tel : List (ℚ × ℚ)) (i : Nat) (f : (ℚ × ℚ) → JValue)
    (h : i < tel.length) :
    (tel.map f)[i]? = some (f (tel.getD i (0, 0))) := by
  rw [List.getElem?_map]
  cases hv : tel[i]? with
  | none =>
    rw [List.getElem?_eq_none_iff] at hv
    omega
  | some v => simp [List.getD_eq_getElem?_getD, hv]

theorem processTelemetry_mk (did : ℚ) (parts : List ℚ) (tel : List (ℚ × ℚ))
    (i : Nat) (t : ℚ) (s : TelemetryState) (h : i < tel.length) :
    processTelemetry i (mkSession did parts tel) t s = .ok (pushFor t tel s i) := by
  unfold processTelemetry
  rw [mkSession_carTelemetry]
  simp only [pyGetItemNat, get?_map_getD tel i _ h, mkTelemetryEntry_throttle,
    mkTelemetryEntry_brake, pyMul100]
  rfl

theorem processParticipants_mk (did : ℚ) (parts : List ℚ) (tel : List (ℚ × ℚ))
    (t : ℚ) (rest : List ℚ) :
    ∀ (k : Nat) (st : TelemetryState),
      (∀ j ∈ matchIdxsAux did rest k, j < tel.length) →
      processParticipants (mkSession did parts tel) t (rest.map mkParticipant) k st
        = ((matchIdxsAux did rest k).foldl (pushFor t tel) st, none) := by
  induction rest with
  | nil => intro k st _; rfl
  | cons d ds ih =>
    intro k st h
    rw [List.map_cons]
    unfold processParticipants
    rw [mkParticipant_driverId, mkSession_driverId]
    simp only [beq_num_num]
    by_cases hd : d = did
    · have hk : k < tel.length := by
        apply h
        simp [matchIdxsAux, hd]
      have hmi : matchIdxsAux did (d :: ds) k = k :: matchIdxsAux did ds (k + 1) := by
        simp [matchIdxsAux, hd]
      have hbq : (d == did) = true := by simp [hd]
      rw [hmi, List.foldl_cons, if_pos hbq]
      simp only [processTelemetry_mk did parts tel k t st hk]
      exact ih (k + 1) (pushFor t tel st k) (fun j hj => h j (by rw [hmi]; simp [hj]))
    · have hbq : ¬ ((d == did) = true) := by simp [hd]
      have hmi : matchIdxsAux did (d :: ds) k = matchIdxsAux did ds (k + 1) := by
        simp [matchIdxsAux, hd]
      rw [hmi, if_neg hbq]
      exact ih (k + 1) st (fun j hj => h j (by rw [hmi]; exact hj))

/-- Claim C3 (corrected): for a well-formed primary packet (one whose body
decodes to the wire schema `mkSession did parts tel` with every matching
participant index inside the telemetry array), processing the packet
pushes one sample for each matching participant, in list order, each
derived from that participant's own telemetry index — not exactly one
sample from the first match. When the session driver id occurs exactly
once in the roster the fold below is a single push from the unique
matching index, but duplicate identities each trigger their own push
(`update_data`'s loop has no `break`). -/
theorem claim_C3_amended (data : List Nat) (t : ℚ) (s : TelemetryState)
    (did : ℚ) (parts : List ℚ) (tel : List (ℚ × ℚ))
    (hhead : data.head? = some 2)
    (hdec : decodeBody (data.drop 4) = .ok (mkSession did parts tel))
    (hbound : ∀ j ∈ matchIdxs did parts, j < tel.length) :
    processPacket data t s
      = ((matchIdxs did parts).foldl (pushFor t tel)
          { s with game_running := true, car_detected := true }, none) := by
  cases data with
  | nil => cases hhead
  | cons b tl =>
    have hb : b = 2 := by simpa using hhead
    subst hb
    rw [processPacket_cons_two]
    simp only [hdec, mkSession_contains, mkSession_sessionsChain, pyIter]
    exact processParticipants_mk did parts tel t parts 0 _ hbound

unseal Rat.mul Rat.inv Rat.add Rat.sub Rat.ofScientific in
/-- Witness for C3: a concrete primary packet with a single matching
participant stores exactly one sample. -/
theorem claim_C3_witness :
    demoDataOne.head? = some 2 ∧
      decodeBody (demoDataOne.drop 4) = .ok (mkSession 7 [7] [(1 / 2, 1 / 10)]) ∧
      (∀ j ∈ matchIdxs 7 [7], j < ([(1 / 2, 1 / 10)] : List (ℚ × ℚ)).length) ∧
      processPacket demoDataOne 37 initState
        = ((matchIdxs 7 [7]).foldl (pushFor 37 [(1 / 2, 1 / 10)])
            { initState with game_running := true, car_detected := true }, none) :=
  ⟨rfl, by rfl, by decide,
    claim_C3_amended demoDataOne 37 initState 7 [7] [(1 / 2, 1 / 10)]
      rfl (by rfl) (by decide)⟩

unseal Rat.mul Rat.inv Rat.add Rat.sub Rat.ofScientific in
/-- Claim C3 (counterexample): a primary packet whose roster contains the
session driver id twice stores two samples (50 then 80), not exactly one
sample derived from the first matching participant. -/
theorem claim_C3_counterexample :
    (processPacket demoDataDup 0 initState).1.timestamps.length = 2 ∧
      (processPacket demoDataDup 0 initState).2 = none ∧
      (processPacket demoDataDup 0 initState).1.throttle_values
        = [JValue.num 50, JValue.num 80] :=
  ⟨by rfl, by rfl, by rfl⟩

/-- Claim C4 (corrected): the stored throttle and brake percentages are the
raw normalized values multiplied by 100 with no clamping whatsoever
(`src/main.py` lines 63-64 contain no bound check). -/
theorem claim_C4_amended (jd : JValue) (i : Nat) (t : ℚ) (s : TelemetryState)
    (tv entry : JValue) (q r : ℚ)
    (h1 : pyGetItemStr jd keyCarTelemetry = .ok tv)
    (h2 : pyGetItemNat tv i = .ok entry)
    (h3 : pyGetItemStr entry keyThrottle = .ok (.num q))
    (h4 : pyGetItemStr entry keyBrake = .ok (.num r)) :
    processTelemetry i jd t s
      = .ok (pushSample t (.num (q * 100)) (.num (r * 100)) s) := by
  unfold processTelemetry
  simp only [h1, h2, h3, h4, pyMul100]

/-- Witness for C4 at a concrete document. -/
theorem claim_C4_witness :
    pyGetItemStr demoExtractDoc keyCarTelemetry
        = .ok (.arr [mkTelemetryEntry (3 / 2) (-1 / 5)]) ∧
      pyGetItemNat (.arr [mkTelemetryEntry (3 / 2) (-1 / 5)]) 0
        = .ok (mkTelemetryEntry (3 / 2) (-1 / 5)) ∧
      processTelemetry 0 demoExtractDoc 5 initState
        = .ok (pushSample 5 (.num ((3 / 2) * 100)) (.num ((-1 / 5) * 100)) initState) :=
  ⟨rfl, rfl,
    claim_C4_amended demoExtractDoc 0 5 initState
      (.arr [mkTelemetryEntry (3 / 2) (-1 / 5)])
      (mkTelemetryEntry (3 / 2) (-1 / 5)) (3 / 2) (-1 / 5) rfl rfl rfl rfl⟩

unseal Rat.mul Rat.inv Rat.add Rat.sub Rat.ofScientific in
/-- Claim C4 (counterexample): an input throttle of 1.5 is stored as 150.0
(not clamped to 100.0) and an input brake of -0.2 is stored as -20.0 (not
clamped to 0.0). -/
theorem claim_C4_counterexample :
    (3 / 2 : ℚ) = 1.5 ∧ (-1 / 5 : ℚ) = -0.2 ∧
      Except.map TelemetryState.throttle_values
          (processTelemetry 0 demoExtractDoc 0 initState) = .ok [JValue.num 150] ∧
      (150 : ℚ) ≠ 100 ∧
      Except.map TelemetryState.brake_values
          (processTelemetry 0 demoExtractDoc 0 initState) = .ok [JValue.num (-20)] ∧
      (-20 : ℚ) ≠ 0 :=
  ⟨by decide, by decide, by rfl, by decide, by rfl, by decide⟩

theorem countMatches_cons_true (jd p : JValue) (ps : List JValue)
    (h : isMatch jd p = true) :
    countMatches jd (p :: ps) = countMatches jd ps + 1 := by
  simp [countMatches, List.filter_cons, h]

theorem countMatches_cons_false (jd p : JValue) (ps : List JValue)
    (h : isMatch jd p = false) :
    countMatches jd (p :: ps) = countMatches jd ps := by
  simp [countMatches, List.filter_cons, h]

theorem processParticipants_no_match (jd : JValue) (t : ℚ) (did : JValue)
    (ps : List JValue) :
    ∀ (k : Nat) (s : TelemetryState),
      pyGetItemStr jd keyDriverId = .ok did →
      (∀ p ∈ ps, ∃ pid, pyGetItemStr p keyDriverId = .ok pid) →
      countMatches jd ps = 0 →
      processParticipants jd t ps k s = (s, none) := by
  induction ps with
  | nil => intro k s _ _ _; rfl
  | cons p ps ih =>
    intro k s hdid hall hcount
    obtain ⟨pid, hp⟩ := hall p (by simp)
    have hm : isMatch jd p = false := by
      cases him : isMatch jd p with
      | false => rfl
      | true => rw [countMatches_cons_true jd p ps him] at hcount; omega
    have hbq : JValue.beq pid did = false := by
      have hm2 := hm
      simp only [isMatch, hp, hdid] at hm2
      exact hm2
    unfold processParticipants
    simp only [hp, hdid]
    rw [if_neg (by simp [hbq])]
    exact ih (k + 1) s hdid (fun q hq => hall q (by simp [hq]))
      (by rw [countMatches_cons_false jd p ps hm] at hcount; exact hcount)

theorem processParticipants_unique (jd : JValue) (t : ℚ) (did : JValue)
    (ps : List JValue) :
    ∀ (k : Nat) (s : TelemetryState) (e : PyErr),
      pyGetItemStr jd keyDriverId = .ok did →
      (∀ p ∈ ps, ∃ pid, pyGetItemStr p keyDriverId = .ok pid) →
      countMatches jd ps ≤ 1 →
      (processParticipants jd t ps k s).2 = some e →
      buffersEq (processParticipants jd t ps k s).1 s := by
  induction ps with
  | nil =>
    intro k s e _ _ _ hout
    simp [processParticipants] at hout
  | cons p ps ih =>
    intro k s e hdid hall hcount hout
    obtain ⟨pid, hp⟩ := hall p (by simp)
    unfold processParticipants at hout ⊢
    simp only [hp, hdid] at hout ⊢
    by_cases hbq : JValue.beq pid did = true
    · rw [if_pos hbq] at hout ⊢
      have hm : isMatch jd p = true := by simp [isMatch, hp, hdid, hbq]
      have hz : countMatches jd ps = 0 := by
        rw [countMatches_cons_true jd p ps hm] at hcount
        omega
      cases hpt : processTelemetry k jd t s with
      | error e' =>
        simp only [hpt] at hout ⊢
        exact ⟨rfl, rfl, rfl⟩
      | ok s' =>
        simp only [hpt] at hout ⊢
        rw [processParticipants_no_match jd t did ps (k + 1) s' hdid
          (fun q hq => hall q (by simp [hq])) hz] at hout
        simp at hout
    · rw [if_neg hbq] at hout ⊢
      have hbf : JValue.beq pid did = false := by simpa using hbq
      have hm : isMatch jd p = false := by simp [isMatch, hp, hdid, hbf]
      exact ih (k + 1) s e hdid (fun q hq => hall q (by simp [hq]))
        (by rw [countMatches_cons_false jd p ps hm] at hcount; exact hcount) hout

/-- Claim C5 (corrected): decode failures exist but not as the claimed
taxonomy. Non-UTF-8 bytes and unparseable text do fail (with the generic
per-packet error classification of the blanket handler), but required
top-level fields are not validated at decode time: a body missing
`CarTelemetry` is silently accepted (no error and no buffer change), a
missing `Sessions` raises `KeyError` only when `CarTelemetry` is present,
and a missing `DriverId` raises `KeyError` only once a participant entry
is actually examined. -/
theorem claim_C5_amended :
    (∀ (data : List Nat) (t : ℚ) (s : TelemetryState) (e : PyErr),
        data.head? = some 2 → utf8Decode (data.drop 4) = .error e →
        (processPacket data t s).2 = some e) ∧
      (∀ (data : List Nat) (t : ℚ) (s : TelemetryState) (cs : List Char) (e : PyErr),
        data.head? = some 2 → utf8Decode (data.drop 4) = .ok cs →
        jsonLoads cs = .error e → (processPacket data t s).2 = some e) ∧
      (∀ (data : List Nat) (t : ℚ) (s : TelemetryState) (jd : JValue),
        data.head? = some 2 → decodeBody (data.drop 4) = .ok jd →
        pyContains jd keyCarTelemetry = .ok false →
        (processPacket data t s).2 = none ∧ buffersEq (processPacket data t s).1 s) ∧
      (∀ (data : List Nat) (t : ℚ) (s : TelemetryState) (jd : JValue) (e : PyErr),
        data.head? = some 2 → decodeBody (data.drop 4) = .ok jd →
        pyContains jd keyCarTelemetry = .ok true → sessionsChain jd = .error e →
        (processPacket data t s).2 = some e ∧ buffersEq (processPacket data t s).1 s) ∧
      (∀ (data : List Nat) (t : ℚ) (s : TelemetryState) (jd p : JValue)
          (rest : List JValue) (pid : JValue),
        data.head? = some 2 → decodeBody (data.drop 4) = .ok jd →
        pyContains jd keyCarTelemetry = .ok true →
        sessionsChain jd = .ok (.arr (p :: rest)) →
        pyGetItemStr p keyDriverId = .ok pid →
        pyGetItemStr jd keyDriverId = .error .keyError →
        (processPacket data t s).2 = some PyErr.keyError) := by
  refine ⟨?_, ?_, ?_, ?_, ?_⟩
  · intro data t s e hhead hutf
    cases data with
    | nil => cases hhead
    | cons b tl =>
      have hb : b = 2 := by simpa using hhead
      subst hb
      have hdec : decodeBody ((2 :: tl).drop 4) = .error e := by
        unfold decodeBody
        rw [hutf]
      rw [processPacket_cons_two]
      simp only [hdec]
  · intro data t s cs e hhead hutf hjson
    cases data with
    | nil => cases hhead
    | cons b tl =>
      have hb : b = 2 := by simpa using hhead
      subst hb
      have hdec : decodeBody ((2 :: tl).drop 4) = .error e := by
        unfold decodeBody
        rw [hutf]
        exact hjson
      rw [processPacket_cons_two]
      simp only [hdec]
  · intro data t s jd hhead hdec hcont
    cases data with
    | nil => cases hhead
    | cons b tl =>
      have hb : b = 2 := by simpa using hhead
      subst hb
      rw [processPacket_cons_two]
      simp only [hdec, hcont]
      exact ⟨trivial, rfl, rfl, rfl⟩
  · intro data t s jd e hhead hdec hcont hsess
    cases data with
    | nil => cases hhead
    | cons b tl =>
      have hb : b = 2 := by simpa using hhead
      subst hb
      rw [processPacket_cons_two]
      simp only [hdec, hcont, hsess]
      exact ⟨trivial, rfl, rfl, rfl⟩
  · intro data t s jd p rest pid hhead hdec hcont hsess hp hdid
    cases data with
    | nil => cases hhead
    | cons b tl =>
      have hb : b = 2 := by simpa using hhead
      subst hb
      rw [processPacket_cons_two]
      simp only [hdec, hcont, hsess, pyIter]
      unfold processParticipants
      simp only [hp, hdid]

/-- Witness for C5 at concrete packets: a non-UTF-8 body, an empty body,
a body missing `CarTelemetry` (silently accepted), a body missing
`Sessions`, and a body missing `DriverId`. -/
theorem claim_C5_witness :
    (processPacket [2, 0, 0, 0, 255] 0 initState).2 = some PyErr.unicodeDecodeError ∧
      (processPacket [2, 0, 0, 0] 0 initState).2 = some PyErr.jsonDecodeError ∧
      ((processPacket demoDataNoCT 0 initState).2 = none ∧
        buffersEq (processPacket demoDataNoCT 0 initState).1 initState) ∧
      ((processPacket demoDataNoSess 0 initState).2 = some PyErr.keyError ∧
        buffersEq (processPacket demoDataNoSess 0 initState).1 initState) ∧
      (processPacket demoDataNoDid 0 initState).2 = some PyErr.keyError :=
  ⟨claim_C5_amended.1 [2, 0, 0, 0, 255] 0 initState PyErr.unicodeDecodeError rfl rfl,
    claim_C5_amended.2.1 [2, 0, 0, 0] 0 initState [] PyErr.jsonDecodeError rfl rfl rfl,
    claim_C5_amended.2.2.1 demoDataNoCT 0 initState jdNoCT rfl (by rfl) rfl,
    claim_C5_amended.2.2.2.1 demoDataNoSess 0 initState jdNoSess PyErr.keyError
      rfl (by rfl) rfl rfl,
    claim_C5_amended.2.2.2.2 demoDataNoDid 0 initState jdNoDid
      (.obj [(keyDriverId, .num 7)]) [] (.num 7) rfl (by rfl) rfl rfl rfl rfl⟩

/-- Claim C5 (counterexample): a primary packet whose body lacks
`CarTelemetry` is processed with no error of any kind — it is silently
accepted, not rejected with `SchemaError`. -/
theorem claim_C5_counterexample :
    (processPacket demoDataNoCT 0 initState).2 = none ∧
      (processPacket demoDataNoCT 0 initState).1.timestamps = [] :=
  ⟨rfl, rfl⟩

/-- Claim C6 (corrected): datagrams shorter than 5 bytes are not specially
rejected — there is no length check and no `MalformedPacket`
classification. An empty datagram fails with `IndexError` at `data[0]`;
a short datagram whose first byte is not 2 is silently dropped with no
error; a short datagram with first byte 2 proceeds with an empty body and
fails JSON decoding. -/
theorem claim_C6_amended :
    (∀ (t : ℚ) (s : TelemetryState),
        processPacket [] t s = (s, some PyErr.indexError)) ∧
      (∀ (b : Nat) (tl : List Nat) (t : ℚ) (s : TelemetryState), b ≠ 2 →
        processPacket (b :: tl) t s = ({ s with game_running := true }, none)) ∧
      (∀ (data : List Nat) (t : ℚ) (s : TelemetryState),
        data.head? = some 2 → data.length < 5 →
        (processPacket data t s).2 = some PyErr.jsonDecodeError ∧
          buffersEq (processPacket data t s).1 s) := by
  refine ⟨fun t s => rfl, fun b tl t s hb => processPacket_cons_ne b tl t s hb, ?_⟩
  intro data t s hhead hlen
  cases data with
  | nil => cases hhead
  | cons b tl =>
    have hb : b = 2 := by simpa using hhead
    subst hb
    have h3 : tl.length ≤ 3 := by simp at hlen; omega
    have hdrop : (2 :: tl).drop 4 = [] := by
      show tl.drop 3 = []
      exact List.drop_eq_nil_of_le h3
    have hdb : decodeBody ([] : List Nat) = .error PyErr.jsonDecodeError := rfl
    rw [processPacket_cons_two]
    simp only [hdrop, hdb]
    exact ⟨trivial, rfl, rfl, rfl⟩

/-- Witness for C6 at concrete short datagrams. -/
theorem claim_C6_witness :
    processPacket [] 0 initState = (initState, some PyErr.indexError) ∧
      processPacket [1] 0 initState = ({ initState with game_running := true }, none) ∧
      (processPacket [2] 0 initState).2 = some PyErr.jsonDecodeError :=
  ⟨claim_C6_amended.1 0 initState,
    claim_C6_amended.2.1 1 [] 0 initState (by decide),
    (claim_C6_amended.2.2 [2] 0 initState rfl (by decide)).1⟩

/-- Claim C6 (counterexample): the 1-byte datagram `[1]` is shorter than
5 bytes yet processing it raises no error at all — it is silently dropped
rather than classified as `MalformedPacket`. -/
theorem claim_C6_counterexample :
    ([1] : List Nat).length < 5 ∧ (processPacket [1] 0 initState).2 = none :=
  ⟨by decide, rfl⟩

/-- Claim C7 (confirmed): for any byte sequence of length at least 5 whose
first byte is 2, framing succeeds with type discriminant 2 and body equal
to every byte from offset 4 onward. -/
theorem claim_C7_frame (data : List Nat) (h5 : 5 ≤ data.length)
    (hhead : data.head? = some 2) : frame data = .ok (2, data.drop 4) := by
  cases data with
  | nil => cases hhead
  | cons b tl =>
    have hb : b = 2 := by simpa using hhead
    subst hb
    rfl

/-- Witness for C7 at a concrete 5-byte datagram. -/
theorem claim_C7_witness :
    5 ≤ ([2, 0, 0, 0, 9] : List Nat).length ∧
      frame [2, 0, 0, 0, 9] = .ok (2, ([2, 0, 0, 0, 9] : List Nat).drop 4) :=
  ⟨by decide, claim_C7_frame [2, 0, 0, 0, 9] (by decide) rfl⟩

/-- Claim C8 (corrected): a failing packet never terminates the loop — the
loop always proceeds to the next datagram with the resulting state — and
failures leave the history buffers untouched in every stage before
participant processing, as well as during participant processing whenever
at most one participant matches the driver id (the expected unique-id
case). However a packet with several matching participants may store
samples for earlier matches before failing on a later one, so "never
modifies the history buffer for that packet" does not hold in general. -/
theorem claim_C8_amended :
    (∀ (d : List Nat) (t : ℚ) (rest : List (List Nat × ℚ)) (s : TelemetryState),
        runLoop ((d, t) :: rest) s = runLoop rest (processPacket d t s).1) ∧
      (∀ (data : List Nat) (t : ℚ) (s : TelemetryState) (e : PyErr),
        (processPacket data t s).2 = some e →
        decodedHasCarTelemetry data = false →
        buffersEq (processPacket data t s).1 s) ∧
      (∀ (data : List Nat) (t : ℚ) (s : TelemetryState) (jd : JValue) (e : PyErr),
        data.head? = some 2 → decodeBody (data.drop 4) = .ok jd →
        pyContains jd keyCarTelemetry = .ok true → sessionsChain jd = .error e →
        buffersEq (processPacket data t s).1 s) ∧
      (∀ (data : List Nat) (t : ℚ) (s : TelemetryState) (jd parts : JValue)
          (plist : List JValue) (did : JValue) (e : PyErr),
        data.head? = some 2 → decodeBody (data.drop 4) = .ok jd →
        pyContains jd keyCarTelemetry = .ok true →
        sessionsChain jd = .ok parts → pyIter parts = .ok plist →
        pyGetItemStr jd keyDriverId = .ok did →
        (∀ p ∈ plist, ∃ pid, pyGetItemStr p keyDriverId = .ok pid) →
        countMatches jd plist ≤ 1 →
        (processPacket data t s).2 = some e →
        buffersEq (processPacket data t s).1 s) := by
  refine ⟨fun d t rest s => rfl, ?_, ?_, ?_⟩
  · intro data t s e hout hct
    cases data with
    | nil => exact ⟨rfl, rfl, rfl⟩
    | cons b tl =>
      by_cases hb : b = 2
      · subst hb
        rw [decodedHasCT_cons_two] at hct
        rw [processPacket_cons_two] at hout ⊢
        cases hdec : decodeBody ((2 :: tl).drop 4) with
        | error e' => exact ⟨rfl, rfl, rfl⟩
        | ok jd =>
          simp only [hdec] at hct hout ⊢
          cases hc : pyContains jd keyCarTelemetry with
          | error e' => exact ⟨rfl, rfl, rfl⟩
          | ok bv =>
            cases bv with
            | false => simp [hc] at hout
            | true => simp [hc] at hct
      · rw [processPacket_cons_ne b tl t s hb] at hout
        simp at hout
  · intro data t s jd e hhead hdec hcont hsess
    cases data with
    | nil => cases hhead
    | cons b tl =>
      have hb : b = 2 := by simpa using hhead
      subst hb
      rw [processPacket_cons_two]
      simp only [hdec, hcont, hsess]
      exact ⟨rfl, rfl, rfl⟩
  · intro data t s jd parts plist did e hhead hdec hcont hsess hiter hdid hall hcount hout
    cases data with
    | nil => cases hhead
    | cons b tl =>
      have hb : b = 2 := by simpa using hhead
      subst hb
      rw [processPacket_cons_two] at hout ⊢
      simp only [hdec, hcont, hsess, hiter] at hout ⊢
      exact processParticipants_unique jd t did plist 0 _ e hdid hall hcount hout

unseal Rat.mul Rat.inv Rat.add Rat.sub Rat.ofScientific in
/-- Witness for C8: the loop-continuation equation at a concrete event
trace, containment for the empty datagram, for a missing-`Sessions` body,
and for a unique-match packet whose telemetry array is empty. -/
theorem claim_C8_witness :
    runLoop (([1], 5) :: []) initState = runLoop [] (processPacket [1] 5 initState).1 ∧
      ((processPacket [] 0 initState).2 = some PyErr.indexError ∧
        buffersEq (processPacket [] 0 initState).1 initState) ∧
      buffersEq (processPacket demoDataNoSess 0 initState).1 initState ∧
      ((processPacket demoDataOOB 0 initState).2 = some PyErr.indexError ∧
        countMatches (mkSession 7 [7] []) [mkParticipant 7] ≤ 1 ∧
        buffersEq (processPacket demoDataOOB 0 initState).1 initState) :=
  ⟨claim_C8_amended.1 [1] 5 [] initState,
    ⟨rfl, claim_C8_amended.2.1 [] 0 initState PyErr.indexError rfl rfl⟩,
    claim_C8_amended.2.2.1 demoDataNoSess 0 initState jdNoSess PyErr.keyError
      rfl (by rfl) rfl rfl,
    ⟨by rfl, by decide,
      claim_C8_amended.2.2.2 demoDataOOB 0 initState (mkSession 7 [7] [])
        (.arr [mkParticipant 7]) [mkParticipant 7] (.num 7) PyErr.indexError
        rfl (by rfl) rfl rfl rfl rfl
        (by
          intro p hp
          simp only [List.mem_singleton] at hp
          subst hp
          exact ⟨.num 7, rfl⟩)
        (by decide) (by rfl)⟩⟩

unseal Rat.mul Rat.inv Rat.add Rat.sub Rat.ofScientific in
/-- Claim C8 (counterexample): a primary packet with two matching
participants and a single telemetry entry fails with `IndexError` on the
second match, yet the failing packet has already stored one sample — the
history buffer was modified by a packet that failed. -/
theorem claim_C8_counterexample :
    (processPacket demoDataDupShort 0 initState).2 = some PyErr.indexError ∧
      (processPacket demoDataDupShort 0 initState).1.timestamps.length = 1 ∧
      initState.timestamps.length = 0 :=
  ⟨by rfl, by rfl, rfl⟩
